import Mathlib

/-!
Shallow embedding of the ton-labs-node-storage core in Lean 4, covering:
- the cell codec and content-addressed cell store (src/cell_db.rs),
- the RocksDB-backed key-value layer: reads, snapshots, transactions and
  destroy (src/db/rocksdb.rs),
- block storage-key derivation (src/types/block_id.rs),
- block-metadata flag predicates and masterchain seq-no resolution
  (src/archives/mod.rs).

Machine integers are modelled as `Nat`/`Int` with explicit `% 2^w` where the
source narrows a width (the `as u8` cast in `serialize_cell`).  Rust
`Result` values become the `RustResult` type below; a Rust `assert!`
failure (a panic, i.e. process abort, distinct from a recoverable `Err`)
becomes the `panicked` constructor.
-/

/-- A byte string; each entry is one byte (values are taken modulo 256 where
the source narrows). Models Rust `Vec<u8>` / `&[u8]`. -/
abbrev Bytes := List Nat

/-- The error surface of the storage layer, from src/error.rs as described by
the spec (`KeyNotFound(key-hex)`, `DbIsDropped`, `HasActiveTransactions`)
plus a constructor for backend/IO errors passed through unchanged. -/
inductive StorageError where
  | KeyNotFound (keyHex : String)
  | DbIsDropped
  | HasActiveTransactions
  | Backend (msg : String)
deriving DecidableEq, Repr

/-- Outcome of a Rust computation: `ok` and `err` model `Result`; `panicked`
models a fatal `assert!` failure, which aborts instead of returning. -/
inductive RustResult (α : Type) where
  | ok (a : α)
  | err (e : StorageError)
  | panicked (msg : String)
deriving DecidableEq, Repr

/-- One lowercase hex digit, as produced by the `hex` crate. -/
def hexDigit (n : Nat) : Char :=
  if n < 10 then Char.ofNat (48 + n) else Char.ofNat (87 + n)

/-- Models `hex::encode`: two lowercase hex characters per byte, in order. -/
def hexEncode (bs : Bytes) : String :=
  String.mk (bs.foldr (fun b acc => hexDigit (b % 256 / 16) :: hexDigit (b % 16) :: acc) [])

/-! ## Cell data model (crate types used by src/cell_db.rs)

`CellData`, `Cell`, `CellId`, `Reference` and `StorageCell` live in the
`ton_types` crate and in this repository's `types` module, neither of which
is under src/; they are modelled from the spec. -/

/-- Modelled from the spec: `ton_types::CellData`, the opaque bit-packed
payload of a cell ("cell data"), represented by its byte content. -/
structure CellData where
  bytes : Bytes
deriving DecidableEq, Repr

/-- Modelled from the spec: `CellData::serialize`, the cell-data's own
self-delimiting serialization — a length prefix followed by the payload
bytes, so a reader can recover the payload and know where it ends.  The
output is never empty (there is always the length byte). -/
def CellData.serializeBytes (cd : CellData) : Bytes :=
  (cd.bytes.length % 256) :: cd.bytes

/-- Modelled from the spec: `CellData::deserialize`, inverse of the
self-delimiting serialization; returns the decoded cell-data and the
remaining unread bytes, or `none` on truncated input. -/
def CellData.deserializeBytes : Bytes → Option (CellData × Bytes)
  | [] => none
  | len :: rest =>
      if len ≤ rest.length then some (⟨rest.take len⟩, rest.drop len) else none

/-- Modelled from the spec: a `Cell` is a DAG node with an opaque payload and
0–4 ordered references to children.  The codec reads of each child only its
content hash (`cell.reference(i)?.repr_hash()`), so references are carried
as the ordered list of 32-byte child content hashes. -/
structure Cell where
  cell_data : CellData
  refHashes : List Bytes
deriving DecidableEq, Repr

/-- Models `Cell::references_count` (a `usize`, the number of references). -/
def Cell.references_count (c : Cell) : Nat := c.refHashes.length

/-- Models `cell.reference(i)?.repr_hash()`: the content hash of the i-th
child; `none` when `i` is out of range (the Rust call returns `Err`). -/
def Cell.reference_hash (c : Cell) (i : Nat) : Option Bytes := c.refHashes.get? i

/-- Modelled from the spec: a `Reference` of a `StorageCell` is either
already resolved to a loaded child or "not yet loaded, identified by hash".
The codec never produces the resolved form, so its payload (the loaded
child cell) is not carried here. -/
inductive Reference where
  | NeedToLoad (hash : Bytes)
  | Loaded
deriving DecidableEq, Repr

/-- Modelled from the spec: `StorageCell`, the in-memory reconstruction of a
persisted cell — decoded cell data plus the reference list.  The shared
non-owning handle to the owning `DynamicBocDb` (used only for later lazy
resolution) and the numeric parameter `0` passed to `with_params` carry no
codec-visible data and are omitted. -/
structure StorageCell where
  cell_data : CellData
  references : List Reference
deriving DecidableEq, Repr

/-- Models `StorageCell::with_params(cell_data, references, boc_db, 0)`. -/
def StorageCell.with_params (cd : CellData) (refs : List Reference) : StorageCell :=
  ⟨cd, refs⟩

/-! ## Cell codec (src/cell_db.rs, `serialize_cell` / `deserialize_cell`) -/

/-- The write loop of `serialize_cell`: for `i in 0..references_count`,
append `cell.reference(i)?.repr_hash()`.  `k` is the number of iterations
remaining, `i` the next index; returns the concatenated hash bytes or the
propagated error of an out-of-range `reference(i)`. -/
def writeRefHashes (cell : Cell) : Nat → Nat → RustResult Bytes
  | _, 0 => .ok []
  | i, k + 1 =>
      match cell.reference_hash i with
      | some h =>
          match writeRefHashes cell (i + 1) k with
          | .ok rest => .ok (h ++ rest)
          | .err e => .err e
          | .panicked m => .panicked m
      | none => .err (.Backend "reference index out of range")

/-- src/cell_db.rs lines 27–44, `CellDb::serialize_cell`:
`let references_count = cell.references_count() as u8;` (narrowing cast),
`assert!(references_count < 5)`, serialize the cell data into the buffer,
append the count byte, append each referenced child's repr hash, then
`assert!(data.len() > 0)`. -/
def serialize_cell (cell : Cell) : RustResult Bytes :=
  let references_count := cell.references_count % 256
  if references_count < 5 then
    let data := CellData.serializeBytes cell.cell_data ++ [references_count]
    match writeRefHashes cell 0 references_count with
    | .ok hs =>
        let data := data ++ hs
        if data.length > 0 then .ok data
        else .panicked "assertion failed: data.len() > 0"
    | .err e => .err e
    | .panicked m => .panicked m
  else .panicked "assertion failed: references_count < 5"

/-- The read loop of `deserialize_cell`: read `k` 32-byte hashes
(`reader.read_u256()?`) from the remaining input, failing on EOF. -/
def readRefHashes : Nat → Bytes → Option (List Bytes)
  | 0, _ => some []
  | k + 1, bs =>
      if 32 ≤ bs.length then
        (readRefHashes k (bs.drop 32)).map (fun rest => bs.take 32 :: rest)
      else none

/-- src/cell_db.rs lines 47–60, `CellDb::deserialize_cell`:
`assert!(data.len() > 0)`, deserialize the cell data from a cursor, read a
one-byte reference count, read that many 32-byte hashes each pushed as
`Reference::NeedToLoad(hash)`, and build the `StorageCell`. -/
def deserialize_cell (data : Bytes) : RustResult StorageCell :=
  if data.length > 0 then
    match CellData.deserializeBytes data with
    | some (cell_data, rest) =>
        match rest with
        | [] => .err (.Backend "unexpected EOF reading references count")
        | references_count :: rest =>
            match readRefHashes references_count rest with
            | some hashes =>
                .ok (StorageCell.with_params cell_data (hashes.map Reference.NeedToLoad))
            | none => .err (.Backend "unexpected EOF reading reference hash")
    | none => .err (.Backend "cell data deserialization failed")
  else .panicked "assertion failed: data.len() > 0"

/-! ## Key-value layer (src/db/rocksdb.rs)

The backend contents (a RocksDB instance) are modelled as an association
list from key bytes to value bytes where a `put` overrides any earlier
binding.  `Arc<Option<DB>>` — the shared handle that is `None` once the
database has been dropped — becomes `Option Store`; the strong-count
sharing that `Arc::get_mut` checks is modelled by counting the outstanding
transaction handles, the only holders of clones of that `Arc`. -/

/-- The persisted key-value contents of one backend instance. -/
abbrev Store := List (Bytes × Bytes)

/-- Point lookup in the backend contents (newest binding wins). -/
def storeLookup (s : Store) (k : Bytes) : Option Bytes :=
  match s.find? (fun kv => kv.1 == k) with
  | some kv => some kv.2
  | none => none

/-- Backend point write: models RocksDB `put` (overrides earlier values). -/
def storePut (s : Store) (k v : Bytes) : Store := (k, v) :: s

/-- Backend point delete: models RocksDB `delete`. -/
def storeDelete (s : Store) (k : Bytes) : Store := s.filter (fun kv => kv.1 != k)

/-- src/db/rocksdb.rs lines 60–64, `KvcReadable::get` for `RocksDb`:
`self.db()?` fails with `DbIsDropped` when the handle holds `None`;
otherwise an absent key fails with `KeyNotFound(hex::encode(key))`. -/
def rocksdb_get (db : Option Store) (key : Bytes) : RustResult Bytes :=
  match db with
  | none => .err .DbIsDropped
  | some s =>
      match storeLookup s key with
      | some v => .ok v
      | none => .err (.KeyNotFound (hexEncode key))

/-- src/db/rocksdb.rs lines 96–100, `KvcSnapshotable::snapshot`: a read-only
view fixed at the moment of the call — the backend contents at that
moment.  Fails with `DbIsDropped` when the handle holds `None`. -/
def rocksdb_snapshot (db : Option Store) : RustResult Store :=
  match db with
  | none => .err .DbIsDropped
  | some s => .ok s

/-- src/db/rocksdb.rs lines 121–125, `KvcReadable::get` for
`RocksDbSnapshot`: an absent key fails with `KeyNotFound(hex::encode(key))`. -/
def snapshot_get (snap : Store) (key : Bytes) : RustResult Bytes :=
  match storeLookup snap key with
  | some v => .ok v
  | none => .err (.KeyNotFound (hexEncode key))

/-- One operation staged in a transaction's pending `WriteBatch`. -/
inductive TxnOp where
  | put (k v : Bytes)
  | delete (k : Bytes)
deriving DecidableEq, Repr

/-- Applying one staged operation to the backend contents. -/
def applyOp (s : Store) : TxnOp → Store
  | .put k v => storePut s k v
  | .delete k => storeDelete s k

/-- A transaction handle (`RocksDbTransaction`): a clone of the shared
backend handle plus the pending batch (the mutex protecting the batch is a
concurrency artifact with no sequential content). -/
structure RocksDbTransaction where
  db : Option Store
  batch : List TxnOp
deriving DecidableEq, Repr

/-- src/db/rocksdb.rs lines 156–162: a fresh transaction has an empty batch
and holds `Arc::clone(&self.db)`. -/
def RocksDbTransaction.new (db : Option Store) : RocksDbTransaction := ⟨db, []⟩

/-- src/db/rocksdb.rs lines 166–169, `KvcTransaction::put`: append a put to
the pending batch; the backend is not touched. -/
def txn_put (t : RocksDbTransaction) (k v : Bytes) : RocksDbTransaction :=
  { t with batch := t.batch ++ [.put k v] }

/-- src/db/rocksdb.rs lines 171–174, `KvcTransaction::delete`: append a
delete to the pending batch; the backend is not touched. -/
def txn_delete (t : RocksDbTransaction) (k : Bytes) : RocksDbTransaction :=
  { t with batch := t.batch ++ [.delete k] }

/-- src/db/rocksdb.rs lines 176–179, `KvcTransaction::clear`: empty the
pending batch. -/
def txn_clear (t : RocksDbTransaction) : RocksDbTransaction :=
  { t with batch := [] }

/-- src/db/rocksdb.rs lines 191–193, `KvcTransaction::len`: the pending
operation count. -/
def txn_len (t : RocksDbTransaction) : Nat := t.batch.length

/-- src/db/rocksdb.rs lines 181–189, `KvcTransaction::commit` (consumes the
handle): when the shared handle still holds the database, write the whole
batch in one `db.write(batch)` — every staged operation applied, in order —
returning the resulting backend contents; when the database was dropped,
fail with `DbIsDropped` applying nothing. -/
def txn_commit (t : RocksDbTransaction) : RustResult Store :=
  match t.db with
  | some s => .ok (t.batch.foldl applyOp s)
  | none => .err .DbIsDropped

/-- A staging action a caller may perform on a live transaction handle
before commit (`put` / `delete` / `clear` from the `KvcTransaction` trait). -/
inductive StageAction where
  | put (k v : Bytes)
  | delete (k : Bytes)
  | clear
deriving DecidableEq, Repr

/-- Perform one staging action on a transaction handle. -/
def stage (t : RocksDbTransaction) : StageAction → RocksDbTransaction
  | .put k v => txn_put t k v
  | .delete k => txn_delete t k
  | .clear => txn_clear t

/-- Perform a sequence of staging actions, in order. -/
def stageAll (t : RocksDbTransaction) (acts : List StageAction) : RocksDbTransaction :=
  acts.foldl stage t

/-- The live `RocksDb` value: the shared backend handle plus the number of
outstanding transaction handles holding clones of it (the strong count
above one that `Arc::get_mut` detects). -/
structure RocksDb where
  db : Option Store
  activeTransactions : Nat
deriving DecidableEq, Repr

/-- src/db/rocksdb.rs lines 144–148, `KvcTransactional::begin_transaction`:
returns a fresh transaction holding `Arc::clone(&self.db)` — one more
outstanding clone of the shared handle. -/
def begin_transaction (s : RocksDb) : RocksDbTransaction × RocksDb :=
  (RocksDbTransaction.new s.db, { s with activeTransactions := s.activeTransactions + 1 })

/-- A transaction handle going out of scope releases its clone of the
shared backend handle. -/
def drop_transaction (s : RocksDb) : RocksDb :=
  { s with activeTransactions := s.activeTransactions - 1 }

/-- src/db/rocksdb.rs lines 46–55, `Kvc::destroy`: `Arc::get_mut` fails —
with `HasActiveTransactions`, touching nothing — whenever another clone of
the shared handle is outstanding; with unique ownership the handle is
replaced by `None` and `DB::destroy` erases the persisted data. -/
def destroy (s : RocksDb) : RustResult Unit × RocksDb :=
  if s.activeTransactions > 0 then (.err .HasActiveTransactions, s)
  else (.ok (), { db := none, activeTransactions := 0 })

/-! ## Cell store operations (src/cell_db.rs, `get_cell` / `put_cell`)

A `CellId` — the 256-bit content hash doubling as the storage key — is
carried as its key bytes (`DbKey::key`). -/

/-- src/cell_db.rs lines 16–18, `CellDb::get_cell`: look the raw bytes up by
cell id via the readable layer (`self.db.get(&cell_id)?`, propagating its
error), then deserialize them. -/
def get_cell (db : Option Store) (cell_id : Bytes) : RustResult StorageCell :=
  match rocksdb_get db cell_id with
  | .ok bytes => deserialize_cell bytes
  | .err e => .err e
  | .panicked m => .panicked m

/-- src/cell_db.rs lines 21–24, `CellDb::put_cell`: serialize the cell
(propagating its error) and stage a put of the bytes into the given
transaction; the backend handle is never written directly. -/
def put_cell (t : RocksDbTransaction) (cell_id : Bytes) (cell : Cell) :
    RustResult Unit × RocksDbTransaction :=
  match serialize_cell cell with
  | .ok bytes => (.ok (), txn_put t cell_id bytes)
  | .err e => (.err e, t)
  | .panicked m => (.panicked m, t)

/-! ## Block identity (src/types/block_id.rs)

`BlockIdExt` and `ShardIdent` are `ton_block` crate types; only the fields
the key derivation reads are modelled.  The SHA-256 compression itself is
the external `sha2` crate; the derivation is stated for an arbitrary digest
function `H` over the absorbed byte stream, which captures exactly what the
source controls: which bytes are absorbed and in which order. -/

/-- Little-endian byte layout of a `w`-byte unsigned integer (`to_le_bytes`):
least significant byte first. -/
def natToLeBytes : Nat → Nat → Bytes
  | 0, _ => []
  | w + 1, v => (v % 256) :: natToLeBytes w (v / 256)

/-- `i32::to_le_bytes`: the value's 4 two's-complement bytes, least
significant first. -/
def i32ToLeBytes (v : Int) : Bytes := natToLeBytes 4 (v % (2 ^ 32)).toNat

/-- `u64::to_le_bytes`. -/
def u64ToLeBytes (v : Nat) : Bytes := natToLeBytes 8 (v % 2 ^ 64)

/-- `u32::to_le_bytes`. -/
def u32ToLeBytes (v : Nat) : Bytes := natToLeBytes 4 (v % 2 ^ 32)

/-- Modelled from the spec: `ton_block::ShardIdent` — a workchain id (`i32`)
and a shard prefix with its tag bit (`u64`), the two fields the key
derivation absorbs. -/
structure ShardIdent where
  workchain_id : Int
  shard_prefix_tag : Nat
deriving DecidableEq, Repr

/-- Modelled from the spec: `ShardIdent::is_masterchain` — whether the
workchain is the coordinating masterchain (`ton_block` masterchain id −1). -/
def ShardIdent.is_masterchain (s : ShardIdent) : Bool := s.workchain_id == -1

/-- Models `ShardIdent::shard_prefix_with_tag`. -/
def ShardIdent.shard_prefix_with_tag (s : ShardIdent) : Nat := s.shard_prefix_tag

/-- Modelled from the spec: `ton_block::BlockIdExt`, the logical block
identifier — (workchain, shard, seq_no, root_hash, file_hash). -/
structure BlockIdExt where
  shard_id : ShardIdent
  seq_no : Nat
  root_hash : Bytes
  file_hash : Bytes
deriving DecidableEq, Repr

/-- Models `block_id.shard()`. -/
def BlockIdExt.shard (b : BlockIdExt) : ShardIdent := b.shard_id

/-- The incremental `sha2::Sha256` hasher state: the byte stream absorbed so
far by `input` calls. -/
structure Sha256 where
  absorbed : Bytes
deriving DecidableEq, Repr

/-- `Sha256::new()`: nothing absorbed yet. -/
def Sha256.new : Sha256 := ⟨[]⟩

/-- `hasher.input(bytes)`: absorb more bytes after those already absorbed. -/
def Sha256.input (h : Sha256) (bytes : Bytes) : Sha256 := ⟨h.absorbed ++ bytes⟩

/-- `hasher.result()`: the digest of the absorbed stream, for digest
function `H` (the external SHA-256 compression). -/
def Sha256.result (H : Bytes → Bytes) (h : Sha256) : Bytes := H h.absorbed

/-- src/types/block_id.rs lines 10–13: the derived storage key together with
the original logical identifier. -/
structure BlockId where
  key : Bytes
  block_id_ext : BlockIdExt
deriving DecidableEq, Repr

/-- src/types/block_id.rs lines 21–33, `impl From<BlockIdExt> for BlockId`:
absorb workchain id, shard prefix+tag and seq_no in little-endian layout,
then the root hash and file hash byte slices, in that order, and take the
digest as the key.  `H` is the SHA-256 digest function of the `sha2` crate. -/
def BlockId.from (H : Bytes → Bytes) (block_id_ext : BlockIdExt) : BlockId :=
  let hasher := Sha256.new
  let hasher := hasher.input (i32ToLeBytes block_id_ext.shard_id.workchain_id)
  let hasher := hasher.input (u64ToLeBytes block_id_ext.shard_id.shard_prefix_with_tag)
  let hasher := hasher.input (u32ToLeBytes block_id_ext.seq_no)
  let hasher := hasher.input block_id_ext.root_hash
  let hasher := hasher.input block_id_ext.file_hash
  let key := hasher.result H
  ⟨key, block_id_ext⟩

/-! ## Block metadata (src/archives/mod.rs)

`BlockMeta` lives in this repository's `types` module, which is not under
src/; it is modelled from the spec: a bitmask of flags stored as an
atomically-updated integer, plus an atomically-set masterchain-reference
sequence number.  The sequentially-consistent atomic loads of the source
become plain field reads of a `u32` value, modelled as `Nat` (the flag
constants are all below `2^32`). -/

/-- Modelled from the spec: `BlockMeta` — the flag bitmask and the
masterchain-reference sequence number, each an atomic `u32` read with
`Ordering::SeqCst`. -/
structure BlockMeta where
  flagsValue : Nat
  masterchain_ref_seq_no : Nat
deriving DecidableEq, Repr

/-- Modelled from the spec: a freshly created `BlockMeta` — no flags set,
masterchain reference still unresolved (held as zero). -/
def BlockMeta.new : BlockMeta := ⟨0, 0⟩

/-- src/archives/mod.rs lines 41–43, `flags`: the atomic load of the flag
bitmask. -/
def flags (block_meta : BlockMeta) : Nat := block_meta.flagsValue

/-- src/archives/mod.rs lines 45–47, `is_flag`:
`flags(block_meta) & flag == flag`. -/
def is_flag (block_meta : BlockMeta) (flag : Nat) : Bool :=
  flags block_meta &&& flag == flag

/-- src/archives/mod.rs lines 49–52, `is_key_block`: flag bit 11. -/
def is_key_block (block_meta : BlockMeta) : Bool :=
  is_flag block_meta (1 <<< 11)

/-- src/archives/mod.rs lines 54–57, `is_data_inited`: flag bit 0. -/
def is_data_inited (block_meta : BlockMeta) : Bool :=
  is_flag block_meta 1

/-- src/archives/mod.rs lines 59–62, `is_proof_inited`: flag bit 1. -/
def is_proof_inited (block_meta : BlockMeta) : Bool :=
  is_flag block_meta (1 <<< 1)

/-- src/archives/mod.rs lines 64–67, `is_prooflink_inited`: flag bit 2. -/
def is_prooflink_inited (block_meta : BlockMeta) : Bool :=
  is_flag block_meta (1 <<< 2)

/-- src/archives/mod.rs lines 69–72, `is_moved_to_archive`: flag bit 13. -/
def is_moved_to_archive (block_meta : BlockMeta) : Bool :=
  is_flag block_meta (1 <<< 13)

/-- src/archives/mod.rs lines 32–38, `get_mc_seq_no`: a masterchain block's
seq_no is read from the identifier, a shard block's from the atomically
loaded masterchain-reference field of the metadata. -/
def get_mc_seq_no (block_id : BlockIdExt) (block_meta : BlockMeta) : Nat :=
  if block_id.shard.is_masterchain then block_id.seq_no
  else block_meta.masterchain_ref_seq_no

/-! ## Helper lemmas about the cell codec -/

/-- The write loop gathers the hashes of references `i, i+1, …, i+k-1`, in
order, whenever they are all in range. -/
lemma writeRefHashes_spec (cell : Cell) (i k : Nat)
    (hik : i + k ≤ cell.refHashes.length) :
    writeRefHashes cell i k = .ok ((cell.refHashes.drop i).take k).flatten := by
  induction k generalizing i with
  | zero => simp [writeRefHashes]
  | succ k ih =>
    have hi : i < cell.refHashes.length := by omega
    have hget : cell.reference_hash i = some cell.refHashes[i] := by
      simp [Cell.reference_hash, List.get?_eq_getElem?, List.getElem?_eq_getElem hi]
    rw [writeRefHashes, hget, ih (i + 1) (by omega), List.drop_eq_getElem_cons hi,
      List.take_succ_cons, List.flatten_cons]

/-- Closed form of `serialize_cell` under the reference-count contract. -/
lemma serialize_cell_eq (cell : Cell) (h : cell.references_count < 5) :
    serialize_cell cell =
      .ok (CellData.serializeBytes cell.cell_data ++ [cell.references_count] ++
        cell.refHashes.flatten) := by
  have h5 : cell.references_count % 256 = cell.references_count :=
    Nat.mod_eq_of_lt (by omega)
  have hw := writeRefHashes_spec cell 0 cell.references_count
    (by simp [Cell.references_count])
  simp only [List.drop_zero] at hw
  rw [show cell.refHashes.take cell.references_count = cell.refHashes by
    unfold Cell.references_count; exact List.take_length _] at hw
  simp [serialize_cell, h5, hw, CellData.serializeBytes, h]

/-- Concatenating reference hashes that are each 32 bytes long yields
`32 * count` bytes. -/
lemma flatten_length_of_len32 (hs : List Bytes) (h32 : ∀ h ∈ hs, h.length = 32) :
    hs.flatten.length = 32 * hs.length := by
  induction hs with
  | nil => simp
  | cons h t ih =>
    have := h32 h (by simp)
    simp [List.flatten_cons, this, ih (fun x hx => h32 x (by simp [hx]))]
    omega

/-- The read loop recovers exactly the hash list from its concatenation when
every hash is 32 bytes long. -/
lemma readRefHashes_flatten (hs : List Bytes) (h32 : ∀ h ∈ hs, h.length = 32) :
    readRefHashes hs.length hs.flatten = some hs := by
  induction hs with
  | nil => simp [readRefHashes]
  | cons h t ih =>
    have hh : h.length = 32 := h32 h (by simp)
    rw [List.length_cons, List.flatten_cons, readRefHashes]
    have h32le : 32 ≤ (h ++ t.flatten).length := by simp [hh]
    rw [if_pos h32le]
    have htake : (h ++ t.flatten).take 32 = h := by
      rw [← hh]; exact List.take_left h t.flatten
    have hdrop : (h ++ t.flatten).drop 32 = t.flatten := by
      rw [← hh]; exact List.drop_left h t.flatten
    rw [htake, hdrop, ih (fun x hx => h32 x (by simp [hx]))]
    rfl

/-- Closed form of `deserialize_cell` on a well-formed encoded record. -/
lemma deserialize_cell_eq (cd : CellData) (hs : List Bytes)
    (hlen : cd.bytes.length < 256) (h32 : ∀ h ∈ hs, h.length = 32) :
    deserialize_cell (CellData.serializeBytes cd ++ [hs.length] ++ hs.flatten) =
      .ok ⟨cd, hs.map Reference.NeedToLoad⟩ := by
  have hl : cd.bytes.length % 256 = cd.bytes.length := Nat.mod_eq_of_lt hlen
  have hbuf : CellData.serializeBytes cd ++ [hs.length] ++ hs.flatten
      = cd.bytes.length :: (cd.bytes ++ hs.length :: hs.flatten) := by
    simp [CellData.serializeBytes, hl]
  rw [hbuf]
  have hle : cd.bytes.length ≤ (cd.bytes ++ hs.length :: hs.flatten).length := by
    simp
  simp only [deserialize_cell, CellData.deserializeBytes, List.length_cons,
    Nat.succ_pos, if_pos, hle, List.take_left, List.drop_left]
  rw [readRefHashes_flatten hs h32]
  rfl

/-! ## Claim theorems: cell codec -/

/-- C1: Cell codec round-trip — for every cell with 0–4 references and
non-empty cell-data (its payload fitting the modelled one-byte length
prefix) whose child content hashes are 32 bytes each, deserializing the
bytes produced by `serialize_cell` yields a `StorageCell` with the same
cell-data and the same ordered list of child hashes, each reference in the
not-yet-loaded state tagged with its hash. -/
theorem c1_cell_codec_round_trip (cell : Cell)
    (h5 : cell.references_count < 5)
    (hne : cell.cell_data.bytes ≠ [])
    (hlen : cell.cell_data.bytes.length < 256)
    (h32 : ∀ h ∈ cell.refHashes, h.length = 32) :
    ∃ buf, serialize_cell cell = .ok buf ∧
      deserialize_cell buf =
        .ok ⟨cell.cell_data, cell.refHashes.map Reference.NeedToLoad⟩ := by
  refine ⟨_, serialize_cell_eq cell h5, ?_⟩
  exact deserialize_cell_eq cell.cell_data cell.refHashes hlen h32

/-- Witness for C1 at the spec's example shape: a cell with 2-byte data and
two 32-byte child hashes round-trips. -/
theorem c1_cell_codec_round_trip_witness :
    ∃ buf,
      serialize_cell ⟨⟨[1, 2]⟩, [List.replicate 32 7, List.replicate 32 9]⟩ = .ok buf ∧
      deserialize_cell buf =
        .ok ⟨⟨[1, 2]⟩, ([List.replicate 32 7, List.replicate 32 9] : List Bytes).map
          Reference.NeedToLoad⟩ :=
  c1_cell_codec_round_trip ⟨⟨[1, 2]⟩, [List.replicate 32 7, List.replicate 32 9]⟩
    (by decide) (by decide) (by decide) (by decide)

/-- C2: Encoded cell layout — for every cell with fewer than 5 references
(32-byte child hashes), `serialize_cell` produces exactly the cell-data's
self-delimiting serialization, then one byte holding the reference count,
then the child content hashes concatenated in reference order, occupying
exactly 32 bytes each with no padding. -/
theorem c2_serialize_cell_layout (cell : Cell)
    (h5 : cell.references_count < 5)
    (h32 : ∀ h ∈ cell.refHashes, h.length = 32) :
    serialize_cell cell =
      .ok (CellData.serializeBytes cell.cell_data ++ [cell.references_count] ++
        cell.refHashes.flatten)
    ∧ cell.refHashes.flatten.length = 32 * cell.references_count :=
  ⟨serialize_cell_eq cell h5, flatten_length_of_len32 cell.refHashes h32⟩

/-- Witness for C2 at the spec's example: data `[0x01, 0x02]` with two child
hashes encodes to `encoded-data ++ [0x02] ++ H1 ++ H2`. -/
theorem c2_serialize_cell_layout_witness :
    serialize_cell ⟨⟨[1, 2]⟩, [List.replicate 32 7, List.replicate 32 9]⟩ =
      .ok (CellData.serializeBytes ⟨[1, 2]⟩ ++ [2] ++
        ([List.replicate 32 7, List.replicate 32 9] : List Bytes).flatten)
    ∧ ([List.replicate 32 7, List.replicate 32 9] : List Bytes).flatten.length = 32 * 2 :=
  c2_serialize_cell_layout ⟨⟨[1, 2]⟩, [List.replicate 32 7, List.replicate 32 9]⟩
    (by decide) (by decide)

/-- C9: Encode-time contract assertions — `serialize_cell` asserts that the
(u8-cast) reference count is below 5 and that the encoded buffer is
non-empty; a violation is a fatal panic, not a recoverable error result,
and under the precondition `references_count < 5` (the cell-data
serialization always succeeding in the model) neither assertion fires and a
non-empty buffer is returned. -/
theorem c9_serialize_cell_contract (cell : Cell) :
    (5 ≤ cell.references_count → cell.references_count < 256 →
      serialize_cell cell = .panicked "assertion failed: references_count < 5")
  ∧ (cell.references_count < 5 →
      ∃ buf, serialize_cell cell = .ok buf ∧ buf ≠ []) := by
  constructor
  · intro h5 h256
    have : cell.references_count % 256 = cell.references_count := Nat.mod_eq_of_lt h256
    simp [serialize_cell, this, Nat.not_lt.mpr h5]
  · intro h
    refine ⟨_, serialize_cell_eq cell h, ?_⟩
    simp [CellData.serializeBytes]

/-- Witness for C9: a cell with 5 references trips the assertion (panic); a
cell with 0 references serializes to a non-empty buffer. -/
theorem c9_serialize_cell_contract_witness :
    serialize_cell ⟨⟨[1]⟩, List.replicate 5 (List.replicate 32 0)⟩ =
      .panicked "assertion failed: references_count < 5"
  ∧ ∃ buf, serialize_cell ⟨⟨[1]⟩, []⟩ = .ok buf ∧ buf ≠ [] :=
  ⟨(c9_serialize_cell_contract ⟨⟨[1]⟩, List.replicate 5 (List.replicate 32 0)⟩).1
      (by decide) (by decide),
   (c9_serialize_cell_contract ⟨⟨[1]⟩, []⟩).2 (by decide)⟩

/-- C10: Implicit decode-side assertion at the public interface —
`deserialize_cell` asserts its input is non-empty, so `get_cell` on a
`CellId` whose stored value is a zero-length byte string hits this fatal
assertion (panics) instead of returning an error, and whenever `get_cell`
returns a result the stored record it read was non-empty. -/
theorem c10_deserialize_empty_record_panics :
    deserialize_cell [] = .panicked "assertion failed: data.len() > 0"
  ∧ (∀ (s : Store) (cell_id : Bytes), storeLookup s cell_id = some [] →
      get_cell (some s) cell_id = .panicked "assertion failed: data.len() > 0")
  ∧ (∀ (db : Option Store) (cell_id : Bytes) (sc : StorageCell),
      get_cell db cell_id = .ok sc →
      ∃ s v, db = some s ∧ storeLookup s cell_id = some v ∧ v ≠ []) := by
  refine ⟨rfl, ?_, ?_⟩
  · intro s cell_id h
    simp [get_cell, rocksdb_get, h, deserialize_cell]
  · intro db cell_id sc h
    cases db with
    | none => simp [get_cell, rocksdb_get] at h
    | some s =>
      refine ⟨s, ?_⟩
      simp only [get_cell, rocksdb_get] at h
      cases hv : storeLookup s cell_id with
      | none => rw [hv] at h; simp at h
      | some v =>
        rw [hv] at h
        refine ⟨v, rfl, rfl, ?_⟩
        intro hveq
        subst hveq
        simp [deserialize_cell] at h

/-- Witness for C10: on a store holding an empty record under key `[1]`,
`get_cell` panics on the non-empty-input assertion. -/
theorem c10_deserialize_empty_record_panics_witness :
    get_cell (some [([1], [])]) [1] = .panicked "assertion failed: data.len() > 0" :=
  c10_deserialize_empty_record_panics.2.1 [([1], [])] [1] (by decide)

/-! ## Claim theorems: block identity and metadata -/

/-- C3: Block storage key derivation — for every digest function `H` (the
external SHA-256, producing 32-byte digests) and every logical block
identifier, `BlockId.from` produces a 32-byte key equal to the digest of
the concatenation of workchain id, shard prefix+tag and sequence number in
little-endian layout followed by the root hash and file hash, in that fixed
order; it is pure, so identifiers equal in all five fields yield
byte-identical keys. -/
theorem c3_block_id_key_derivation (H : Bytes → Bytes)
    (hH : ∀ bs, (H bs).length = 32) (id id2 : BlockIdExt) :
    (BlockId.from H id).key =
      H (i32ToLeBytes id.shard_id.workchain_id ++
         u64ToLeBytes id.shard_id.shard_prefix_tag ++
         u32ToLeBytes id.seq_no ++ id.root_hash ++ id.file_hash)
  ∧ (BlockId.from H id).key.length = 32
  ∧ (id.shard_id.workchain_id = id2.shard_id.workchain_id →
     id.shard_id.shard_prefix_tag = id2.shard_id.shard_prefix_tag →
     id.seq_no = id2.seq_no → id.root_hash = id2.root_hash →
     id.file_hash = id2.file_hash →
     (BlockId.from H id).key = (BlockId.from H id2).key) := by
  refine ⟨?_, ?_, ?_⟩
  · simp [BlockId.from, Sha256.new, Sha256.input, Sha256.result,
      ShardIdent.shard_prefix_with_tag]
  · simp [BlockId.from, Sha256.new, Sha256.input, Sha256.result, hH]
  · intro h1 h2 h3 h4 h5
    obtain ⟨⟨w, p⟩, s, r, f⟩ := id
    obtain ⟨⟨w2, p2⟩, s2, r2, f2⟩ := id2
    simp_all [BlockId.from, Sha256.new, Sha256.input, Sha256.result,
      ShardIdent.shard_prefix_with_tag]

/-- Witness for C3 at a concrete identifier and a concrete 32-byte digest
function. -/
theorem c3_block_id_key_derivation_witness :
    (BlockId.from (fun _ => List.replicate 32 0) ⟨⟨-1, 5⟩, 7, [1], [2]⟩).key.length = 32 :=
  (c3_block_id_key_derivation (fun _ => List.replicate 32 0) (fun _ => by simp)
    ⟨⟨-1, 5⟩, 7, [1], [2]⟩ ⟨⟨-1, 5⟩, 7, [1], [2]⟩).2.1

/-- `f &&& mask = mask` says exactly that every bit set in the mask is set
in `f`. -/
lemma land_eq_self_iff (f mask : Nat) :
    f &&& mask = mask ↔ ∀ j, mask.testBit j = true → f.testBit j = true := by
  constructor
  · intro h j hj
    have hcong := congrArg (fun n => n.testBit j) h
    simp only [Nat.testBit_land, hj, Bool.and_true] at hcong
    exact hcong
  · intro h
    apply Nat.eq_of_testBit_eq
    intro j
    rw [Nat.testBit_land]
    cases hj : mask.testBit j with
    | false => simp
    | true => simp [h j hj]

/-- C7: Flag test semantics — for every flags value, each predicate tests
its flag by `flags &&& bit == bit` with data-inited = bit 0, proof-inited =
bit 1, prooflink-inited = bit 2, is-key-block = bit 11, moved-to-archive =
bit 13; `is_flag` holds exactly when all bits of its mask are set, and
testing an unset bit returns false. -/
theorem c7_flag_test_semantics (f r mask i : Nat) :
    (is_data_inited ⟨f, r⟩ = (f &&& 1 == 1))
  ∧ (is_proof_inited ⟨f, r⟩ = (f &&& 2 == 2))
  ∧ (is_prooflink_inited ⟨f, r⟩ = (f &&& 4 == 4))
  ∧ (is_key_block ⟨f, r⟩ = (f &&& 2048 == 2048))
  ∧ (is_moved_to_archive ⟨f, r⟩ = (f &&& 8192 == 8192))
  ∧ (is_flag ⟨f, r⟩ mask = true ↔ ∀ j, mask.testBit j = true → f.testBit j = true)
  ∧ (f.testBit i = false → is_flag ⟨f, r⟩ (2 ^ i) = false) := by
  refine ⟨rfl, ?_, ?_, ?_, ?_, ?_, ?_⟩
  · norm_num [is_proof_inited, is_flag, flags, Nat.shiftLeft_eq]
  · norm_num [is_prooflink_inited, is_flag, flags, Nat.shiftLeft_eq]
  · norm_num [is_key_block, is_flag, flags, Nat.shiftLeft_eq]
  · norm_num [is_moved_to_archive, is_flag, flags, Nat.shiftLeft_eq]
  · rw [show is_flag ⟨f, r⟩ mask = (f &&& mask == mask) from rfl]
    rw [beq_iff_eq]
    exact land_eq_self_iff f mask
  · intro h
    cases hf : is_flag ⟨f, r⟩ (2 ^ i) with
    | false => rfl
    | true =>
      exfalso
      have heq : f &&& 2 ^ i = 2 ^ i := by
        simpa [is_flag, flags] using hf
      have := (land_eq_self_iff f (2 ^ i)).mp heq i Nat.testBit_two_pow_self
      rw [h] at this
      exact Bool.false_ne_true this

/-- Witness for C7: flags value 5 (bits 0 and 2) fails the bit-1 test, and
the key-block predicate at flags 2048 evaluates per its mask. -/
theorem c7_flag_test_semantics_witness :
    is_flag ⟨5, 0⟩ (2 ^ 1) = false ∧ is_key_block ⟨2048, 0⟩ = (2048 &&& 2048 == 2048) :=
  ⟨(c7_flag_test_semantics 5 0 4 1).2.2.2.2.2.2 (by decide),
   (c7_flag_test_semantics 2048 0 4 1).2.2.2.1⟩

/-- C8: Masterchain sequence-number resolution — `get_mc_seq_no` returns
the sequence number from the identifier when the block's shard is the
masterchain, and otherwise the atomically-loaded masterchain-reference
field of the metadata, which on freshly created metadata holds zero
(unresolved). -/
theorem c8_get_mc_seq_no_resolution (id : BlockIdExt) (meta : BlockMeta) :
    (id.shard.is_masterchain = true → get_mc_seq_no id meta = id.seq_no)
  ∧ (id.shard.is_masterchain = false →
      get_mc_seq_no id meta = meta.masterchain_ref_seq_no)
  ∧ (id.shard.is_masterchain = false → get_mc_seq_no id BlockMeta.new = 0) := by
  refine ⟨?_, ?_, ?_⟩ <;> intro h <;> simp [get_mc_seq_no, h, BlockMeta.new]

/-- Witness for C8: a masterchain block reads its own seq_no; a shard block
reads the metadata's masterchain reference. -/
theorem c8_get_mc_seq_no_resolution_witness :
    get_mc_seq_no ⟨⟨-1, 5⟩, 7, [1], [2]⟩ ⟨0, 42⟩ = 7
  ∧ get_mc_seq_no ⟨⟨0, 5⟩, 7, [1], [2]⟩ ⟨0, 42⟩ = 42 :=
  ⟨(c8_get_mc_seq_no_resolution ⟨⟨-1, 5⟩, 7, [1], [2]⟩ ⟨0, 42⟩).1 (by decide),
   (c8_get_mc_seq_no_resolution ⟨⟨0, 5⟩, 7, [1], [2]⟩ ⟨0, 42⟩).2.1 (by decide)⟩

/-! ## Claim theorems: key-value layer -/

/-- Staging operations touches only the pending batch, never the shared
backend handle a transaction carries. -/
lemma stageAll_db (acts : List StageAction) (t : RocksDbTransaction) :
    (stageAll t acts).db = t.db := by
  induction acts generalizing t with
  | nil => rfl
  | cons a acts ih =>
    rw [stageAll, List.foldl_cons, ← stageAll]
    rw [ih]
    cases a <;> rfl

/-- C4: Transaction staging is invisible until commit — staging any
sequence of put/delete/clear operations into a transaction returned by
`begin_transaction` leaves the live store's contents, and hence every read
of it, unchanged; `put_cell` only stages a put of the encoded cell into the
given transaction without writing to the backend; and `commit` applies the
whole batch, in order, to the backend contents, or — when the database was
dropped — fails entirely, applying nothing. -/
theorem c4_transaction_staging_invisible (s : RocksDb) (acts : List StageAction)
    (k cell_id bytes : Bytes) (cell : Cell) (t : RocksDbTransaction) :
    (begin_transaction s).2.db = s.db
  ∧ (stageAll (begin_transaction s).1 acts).db = s.db
  ∧ rocksdb_get (stageAll (begin_transaction s).1 acts).db k = rocksdb_get s.db k
  ∧ (put_cell t cell_id cell).2.db = t.db
  ∧ (serialize_cell cell = .ok bytes →
      put_cell t cell_id cell = (.ok (), txn_put t cell_id bytes)
      ∧ (put_cell t cell_id cell).2.batch = t.batch ++ [.put cell_id bytes])
  ∧ (∀ st, t.db = some st → txn_commit t = .ok (t.batch.foldl applyOp st))
  ∧ (t.db = none → txn_commit t = .err .DbIsDropped) := by
  refine ⟨rfl, ?_, ?_, ?_, ?_, ?_, ?_⟩
  · exact stageAll_db acts _
  · rw [stageAll_db acts _]
    rfl
  · cases hs : serialize_cell cell <;> simp [put_cell, hs, txn_put]
  · intro hser
    rw [put_cell, hser]
    exact ⟨rfl, rfl⟩
  · intro st hst
    rw [txn_commit, hst]
  · intro hst
    rw [txn_commit, hst]

/-- Witness for C4: a staged put is invisible to a live read, `put_cell`
stages the encoded bytes, and commit applies the batch. -/
theorem c4_transaction_staging_invisible_witness :
    rocksdb_get (stageAll (begin_transaction ⟨some [], 0⟩).1 [.put [1] [2]]).db [1] =
      rocksdb_get (some ([] : Store)) [1]
  ∧ put_cell ⟨some [], []⟩ [3] ⟨⟨[1]⟩, []⟩ =
      (.ok (), txn_put ⟨some [], []⟩ [3] [1, 1, 0]) :=
  ⟨(c4_transaction_staging_invisible ⟨some [], 0⟩ [.put [1] [2]] [1] [3] [1, 1, 0]
      ⟨⟨[1]⟩, []⟩ ⟨some [], []⟩).2.2.1,
   ((c4_transaction_staging_invisible ⟨some [], 0⟩ [.put [1] [2]] [1] [3] [1, 1, 0]
      ⟨⟨[1]⟩, []⟩ ⟨some [], []⟩).2.2.2.2.1 (by decide)).1⟩

/-- C5: Not-found semantics — for every key absent from the backend
contents, `get` fails with `KeyNotFound` carrying the hex-encoded key, on
the live store and on a snapshot alike, and `get_cell` on a `CellId` never
written propagates that not-found error rather than panicking or returning
a cell. -/
theorem c5_key_not_found (s : Store) (k : Bytes) (h : storeLookup s k = none) :
    rocksdb_get (some s) k = .err (.KeyNotFound (hexEncode k))
  ∧ rocksdb_snapshot (some s) = .ok s
  ∧ snapshot_get s k = .err (.KeyNotFound (hexEncode k))
  ∧ get_cell (some s) k = .err (.KeyNotFound (hexEncode k)) := by
  refine ⟨?_, rfl, ?_, ?_⟩ <;> simp [rocksdb_get, snapshot_get, get_cell, h]

/-- Witness for C5: key `[3]` is absent from a one-entry store; all three
reads fail with `KeyNotFound "03"`. -/
theorem c5_key_not_found_witness :
    rocksdb_get (some [([1], [2])]) [3] = .err (.KeyNotFound (hexEncode [3]))
  ∧ rocksdb_snapshot (some [([1], [2])]) = .ok [([1], [2])]
  ∧ snapshot_get [([1], [2])] [3] = .err (.KeyNotFound (hexEncode [3]))
  ∧ get_cell (some [([1], [2])]) [3] = .err (.KeyNotFound (hexEncode [3])) :=
  c5_key_not_found [([1], [2])] [3] (by decide)

/-- C6: Destroy safety — `destroy` fails with `HasActiveTransactions`,
leaving the backend intact, whenever a transaction handle created by
`begin_transaction` (holding a clone of the shared backend handle) is still
alive; with no such handles outstanding, destroy succeeds and erases the
persisted data. -/
theorem c6_destroy_safety (s : RocksDb) :
    (0 < s.activeTransactions → destroy s = (.err .HasActiveTransactions, s))
  ∧ destroy (begin_transaction s).2 =
      (.err .HasActiveTransactions, (begin_transaction s).2)
  ∧ (s.activeTransactions = 0 →
      destroy s = (.ok (), { db := none, activeTransactions := 0 })) := by
  refine ⟨?_, ?_, ?_⟩
  · intro h
    simp [destroy, h]
  · simp [destroy, begin_transaction]
  · intro h
    simp [destroy, h]

/-- Witness for C6: destroy fails right after `begin_transaction` and
succeeds once no transaction handle is outstanding. -/
theorem c6_destroy_safety_witness :
    destroy (begin_transaction ⟨some [([1], [2])], 0⟩).2 =
      (.err .HasActiveTransactions, (begin_transaction ⟨some [([1], [2])], 0⟩).2)
  ∧ destroy ⟨some [([1], [2])], 0⟩ = (.ok (), { db := none, activeTransactions := 0 }) :=
  ⟨(c6_destroy_safety ⟨some [([1], [2])], 0⟩).2.1,
   (c6_destroy_safety ⟨some [([1], [2])], 0⟩).2.2 rfl⟩
